import Mathlib

/-!
Shallow embedding of the IndicAI client-side recommendation logic.

The embedded code comes from:
* the daily-quota store (`getChosenItemsToday`, `addChosenItem`,
  `getRemainingChoices`, `filterOutChosenItems`, `getRandomUnchosenSelection`),
* the preference updaters (`updateUserProfile` in `src/lib/recommendations.ts`
  and `updateUserProfileWithInteraction`),
* the Gemini response parsing (`parseGeminiResponse`) and the id-based
  reordering in `getGeminiPersonalizedRecommendations`,
* the recommendation orchestrator (`getPersonalizedRecommendations`).

Modelling conventions:
* `localStorage` is modelled as `Option Storage`: `none` is the non-client
  (server-side) execution context where `typeof window === 'undefined'` and
  `getLocalStorage()` returns `null` (in the source these two checks always
  agree, since `getLocalStorage` returns the storage exactly when
  `isClientSide()` holds).
* The stored value under the `indicai_chosen_today` key is modelled by
  `StoredChosen`: `val l` is a string that `JSON.parse` decodes to the list
  `l`, and `corrupt` is a stored string on which `JSON.parse` throws (the
  `catch` branch of `getChosenItemsToday`).  The writer (`addChosenItem`)
  only ever stores `val` values.
* The current date string and the current timestamp (`getCurrentDate()`,
  `Date.now()`) are passed explicitly.
* The impure shuffle `[...xs].sort(() => 0.5 - Math.random())` is modelled
  by an explicit `shuffle` parameter; theorems that need it assume that
  `shuffle l` is a permutation of `l`.
* Stateful functions return a pair (result, updated storage).
* JavaScript numbers appearing here are non-negative integers (list lengths,
  counts, timestamps), modelled as `Nat`; `Math.max(0, limit - count)` is
  `Nat` truncated subtraction.
* Fields of `MediaItem` never read by the embedded code (description,
  imageUrl, rating, year, optional credits) are omitted.
-/

namespace IndicAI

inductive MediaType where
  | movie : MediaType
  | series : MediaType
  | book : MediaType
  | music : MediaType
deriving DecidableEq, Repr

structure MediaItem where
  id : String
  type : MediaType
  title : String
  genres : List String
deriving DecidableEq, Repr

inductive Action where
  | like : Action
  | dislike : Action
  | superlike : Action
  | skip : Action
deriving DecidableEq, Repr, BEq

/-- The `{ itemId, action }` argument of the preference updaters. -/
structure Interaction where
  itemId : String
  action : Action
deriving DecidableEq, Repr

/-- A `ChosenItem` record `{ id, timestamp }` from the daily-quota store. -/
structure ChosenItem where
  id : String
  timestamp : Nat
deriving DecidableEq, Repr

/-- Parse outcome of the raw string stored under `indicai_chosen_today`:
`val l` when `JSON.parse` yields `l`, `corrupt` when it throws. -/
inductive StoredChosen where
  | corrupt : StoredChosen
  | val : List ChosenItem → StoredChosen
deriving DecidableEq, Repr

/-- The two `localStorage` keys used by the quota store:
`indicai_chosen_today` and `indicai_last_reset_date` (`none` = key absent). -/
structure Storage where
  chosenToday : Option StoredChosen
  lastResetDate : Option String
deriving DecidableEq, Repr

def DAILY_LIMIT : Nat := 20

/-- Embedding of `shouldResetDailyCount`: the stored last-reset date differs from today
(`lastResetDate !== today`; an absent key also differs). -/
def shouldResetDailyCount (today : String) (s : Storage) : Bool :=
  s.lastResetDate != some today

/-- Embedding of `resetDailyCountIfNeeded` on available storage: if the stored date is
stale, remove the chosen list and overwrite the date with today. -/
def resetDailyCountIfNeeded (today : String) (s : Storage) : Storage :=
  if shouldResetDailyCount today s then ⟨none, some today⟩ else s

/-- Embedding of `getChosenItemsToday`: on the server side returns `[]`; otherwise
reconciles the date, then reads and parses the stored chosen list,
returning `[]` when the key is absent or the value unparseable. -/
def getChosenItemsToday (today : String) (st : Option Storage) :
    List ChosenItem × Option Storage :=
  match st with
  | none => ([], none)
  | some s =>
    let s1 := resetDailyCountIfNeeded today s
    match s1.chosenToday with
    | none => ([], some s1)
    | some StoredChosen.corrupt => ([], some s1)
    | some (StoredChosen.val l) => (l, some s1)

/-- Embedding of `addChosenItem`: on the server side returns `true` without touching any
state; otherwise reconciles the date, reads today's list, refuses (`false`)
at the daily limit, is a no-op (`true`) when the id is already present, and
otherwise appends a record with the current timestamp. -/
def addChosenItem (today : String) (now : Nat) (id : String)
    (st : Option Storage) : Bool × Option Storage :=
  match st with
  | none => (true, none)
  | some s =>
    let s1 := resetDailyCountIfNeeded today s
    let r := getChosenItemsToday today (some s1)
    let chosenItems := r.1
    if DAILY_LIMIT ≤ chosenItems.length then
      (false, r.2)
    else if chosenItems.any (fun item => item.id == id) then
      (true, r.2)
    else
      match r.2 with
      | none => (true, none)
      | some s2 =>
        (true, some ⟨some (StoredChosen.val (chosenItems ++ [⟨id, now⟩])),
          s2.lastResetDate⟩)

/-- Embedding of `getRemainingChoices`: on the server side the full limit; otherwise
`Math.max(0, DAILY_LIMIT - count)` after date reconciliation. -/
def getRemainingChoices (today : String) (st : Option Storage) :
    Nat × Option Storage :=
  match st with
  | none => (DAILY_LIMIT, none)
  | some s =>
    let s1 := resetDailyCountIfNeeded today s
    let r := getChosenItemsToday today (some s1)
    (DAILY_LIMIT - r.1.length, r.2)

/-- Embedding of `filterOutChosenItems`: on the server side the original list; otherwise
drops the items whose id is already in today's chosen list. -/
def filterOutChosenItems (today : String) (items : List MediaItem)
    (st : Option Storage) : List MediaItem × Option Storage :=
  match st with
  | none => (items, none)
  | some s =>
    let r := getChosenItemsToday today (some s)
    let chosenIds := r.1.map (fun item => item.id)
    (items.filter (fun item => !(chosenIds.contains item.id)), r.2)

/-- Embedding of `getRandomUnchosenSelection`: on the server side, a shuffle of the full
candidate list truncated to `min count items.length`; otherwise filters out
chosen items, caps the take at `min count remaining`, and returns `[]` when
that cap is zero. -/
def getRandomUnchosenSelection (shuffle : List MediaItem → List MediaItem)
    (today : String) (items : List MediaItem) (count : Nat)
    (st : Option Storage) : List MediaItem × Option Storage :=
  match st with
  | none => ((shuffle items).take (min count items.length), none)
  | some s =>
    let r1 := filterOutChosenItems today items (some s)
    let unchosenItems := r1.1
    let r2 := getRemainingChoices today r1.2
    let remainingChoices := r2.1
    let maxSelectable := min count remainingChoices
    if maxSelectable = 0 then ([], r2.2)
    else ((shuffle unchosenItems).take maxSelectable, r2.2)

/-- The chosen list recorded in a storage value (the parse of the stored
string, `[]` when absent or corrupt). -/
def chosenListOf (s : Storage) : List ChosenItem :=
  match s.chosenToday with
  | some (StoredChosen.val l) => l
  | _ => []

theorem resetDailyCountIfNeeded_lastResetDate (today : String) (s : Storage) :
    (resetDailyCountIfNeeded today s).lastResetDate = some today := by
  unfold resetDailyCountIfNeeded shouldResetDailyCount
  by_cases h : s.lastResetDate = some today
  · simp [h]
  · simp [bne_iff_ne, h]

theorem resetDailyCountIfNeeded_idem (today : String) (s : Storage) :
    resetDailyCountIfNeeded today (resetDailyCountIfNeeded today s) =
      resetDailyCountIfNeeded today s := by
  unfold resetDailyCountIfNeeded shouldResetDailyCount
  by_cases h : s.lastResetDate = some today
  · simp [h]
  · simp [bne_iff_ne, h]

theorem resetDailyCountIfNeeded_of_current (today : String) (s : Storage)
    (h : s.lastResetDate = some today) :
    resetDailyCountIfNeeded today s = s := by
  unfold resetDailyCountIfNeeded shouldResetDailyCount
  simp [h]

theorem resetDailyCountIfNeeded_of_stale (today : String) (s : Storage)
    (h : s.lastResetDate ≠ some today) :
    resetDailyCountIfNeeded today s = ⟨none, some today⟩ := by
  unfold resetDailyCountIfNeeded shouldResetDailyCount
  simp [bne_iff_ne, h]

theorem getChosenItemsToday_eq (today : String) (s : Storage) :
    getChosenItemsToday today (some s) =
      (chosenListOf (resetDailyCountIfNeeded today s),
        some (resetDailyCountIfNeeded today s)) := by
  unfold getChosenItemsToday chosenListOf
  cases h : (resetDailyCountIfNeeded today s).chosenToday with
  | none => simp [h]
  | some v => cases v <;> simp [h]

/-- The JavaScript idiom `[...new Set(l)]`: keep the first occurrence of
each element, preserving order. -/
def jsSetDedup (l : List String) : List String :=
  l.foldl (fun acc x => if acc.contains x then acc else acc ++ [x]) []

/-- The genre-appending loop shared by both preference updaters:
`for (const genre of genres) if (!prefs.includes(genre)) prefs.push(genre)`. -/
def pushUnique (prefs : List String) (genres : List String) : List String :=
  genres.foldl (fun acc g => if acc.contains g then acc else acc ++ [g]) prefs

/-- Embedding of `updateUserProfile` from `src/lib/recommendations.ts`: looks the item up
in `allMediaItems`; on like/superlike appends its missing genres; then
dedups (`[...new Set(...)]`) and truncates to 15. -/
def updateUserProfile (currentPreferences : List String)
    (interaction : Interaction) (allMediaItems : List MediaItem) :
    List String :=
  let item := allMediaItems.find? (fun m => m.id == interaction.itemId)
  let newPreferences :=
    if interaction.action == Action.like ||
        interaction.action == Action.superlike then
      match item with
      | some it => pushUnique currentPreferences it.genres
      | none => currentPreferences
    else currentPreferences
  (jsSetDedup newPreferences).take 15

/-- Embedding of `updateUserProfileWithInteraction`: obtains the item through the
injected lookup (`getMediaDetails`); when it is not found, returns the
current preferences unchanged; otherwise on like/superlike appends the
missing genres, then dedups and truncates to 10. -/
def updateUserProfileWithInteraction (currentPreferences : List String)
    (interaction : Interaction) (lookup : String → Option MediaItem) :
    List String :=
  match lookup interaction.itemId with
  | none => currentPreferences
  | some item =>
    let newPreferences :=
      if interaction.action == Action.like ||
          interaction.action == Action.superlike then
        pushUnique currentPreferences item.genres
      else currentPreferences
    (jsSetDedup newPreferences).take 10

/-- A JavaScript word character (`\w` without the `u` flag): ASCII letter,
digit or underscore. -/
def isWordChar (c : Char) : Bool :=
  c.isAlphanum || c == '_'

/-- Group a character list into maximal runs of characters agreeing on
`isWordChar`.  The matches of `/\b\d+\b/g` are exactly the word-character
runs made of digits only, because `\b` holds exactly at a word/non-word
frontier, so a digit sequence adjacent to another word character (as in
`abc123`) has no boundary and is not matched. -/
def groupRuns : List Char → List (List Char)
  | [] => []
  | [c] => [[c]]
  | c :: d :: cs =>
    match groupRuns (d :: cs) with
    | [] => [[c]]
    | r :: rs =>
      if isWordChar c == isWordChar d then (c :: r) :: rs
      else [c] :: r :: rs

/-- The token list produced by `response.match(/\b\d+\b/g) || []`. -/
def digitTokens (s : String) : List String :=
  ((groupRuns s.data).filter
      (fun r => !r.isEmpty && r.all Char.isDigit)).map List.asString

/-- Embedding of `parseGeminiResponse`: extract the numeric tokens, keep those equal to
some candidate id, dedup keeping first occurrences, and truncate to 10.
(The `catch` branch of the source is unreachable: the body is exception
free, so it is not modelled.) -/
def parseGeminiResponse (response : String)
    (availableItems : List MediaItem) : List String :=
  let idMatches := digitTokens response
  let validIds := idMatches.filter
    (fun id => availableItems.any (fun item => item.id == id))
  (jsSetDedup validIds).take 10

/-- The reorder step of `getGeminiPersonalizedRecommendations`:
`ids.map(find).filter(defined).slice(0, 10)`. -/
def reorderByIds (recommendedIds : List String)
    (tmdbRecommendations : List MediaItem) : List MediaItem :=
  ((recommendedIds.map
      (fun id => tmdbRecommendations.find? (fun item => item.id == id))).filterMap
    (fun x => x)).take 10

/-- The fallback in `getPersonalizedRecommendations`:
`gemini.length > 0 ? gemini : tmdb` — an empty re-rank result keeps the
pre-rerank ordering. -/
def chooseFinalRecommendations (gemini tmdb : List MediaItem) :
    List MediaItem :=
  if gemini.length > 0 then gemini else tmdb

/-- The `try` body of `getPersonalizedRecommendations`, with the outcomes
of the awaited collaborators injected: `fetchRec` and `fetchPop` are the
TMDB queries, `gemini` the re-ranking call (each may throw, modelled by
`Except.error`), `mockItems` the static bundled dataset. -/
def orchestratorBody (fetchRec fetchPop : Except Unit (List MediaItem))
    (gemini : List MediaItem → Except Unit (List MediaItem))
    (mockItems : List MediaItem)
    (shuffle : List MediaItem → List MediaItem)
    (today : String) (st : Option Storage) :
    Except Unit (List MediaItem × Option Storage) :=
  match fetchRec with
  | Except.error e => Except.error e
  | Except.ok tmdb =>
    match (if tmdb.isEmpty then fetchPop else Except.ok tmdb) with
    | Except.error e => Except.error e
    | Except.ok tmdb2 =>
      if tmdb2.isEmpty then
        Except.ok (getRandomUnchosenSelection shuffle today mockItems 10 st)
      else
        match gemini tmdb2 with
        | Except.error e => Except.error e
        | Except.ok gem =>
          Except.ok (getRandomUnchosenSelection shuffle today
            (chooseFinalRecommendations gem tmdb2) 10 st)

/-- Embedding of `getPersonalizedRecommendations`: the `try` body with its `catch`
branch, which falls back to a quota-limited selection from the static
mock dataset. -/
def getPersonalizedRecommendations
    (fetchRec fetchPop : Except Unit (List MediaItem))
    (gemini : List MediaItem → Except Unit (List MediaItem))
    (mockItems : List MediaItem)
    (shuffle : List MediaItem → List MediaItem)
    (today : String) (st : Option Storage) :
    List MediaItem × Option Storage :=
  match orchestratorBody fetchRec fetchPop gemini mockItems shuffle today st with
  | Except.ok r => r
  | Except.error _ => getRandomUnchosenSelection shuffle today mockItems 10 st

/-! Helper lemmas about the first-occurrence dedup fold shared by
`jsSetDedup` and `pushUnique`. -/

theorem dedupStep_mem (acc : List String) (x : String) (h : x ∈ acc) :
    (if acc.contains x then acc else acc ++ [x]) = acc := by
  rw [if_pos (List.elem_iff.mpr h)]

theorem dedupStep_not_mem (acc : List String) (x : String) (h : x ∉ acc) :
    (if acc.contains x then acc else acc ++ [x]) = acc ++ [x] := by
  rw [if_neg]
  intro hc
  exact h (List.elem_iff.mp hc)

theorem dedupFold_nodup (l : List String) :
    ∀ acc : List String, acc.Nodup →
      (l.foldl (fun acc x => if acc.contains x then acc else acc ++ [x])
        acc).Nodup := by
  induction l with
  | nil => intro acc h; exact h
  | cons x xs ih =>
    intro acc h
    simp only [List.foldl_cons]
    by_cases hx : x ∈ acc
    · rw [dedupStep_mem acc x hx]
      exact ih acc h
    · rw [dedupStep_not_mem acc x hx]
      refine ih (acc ++ [x]) ?_
      simp [List.nodup_append, h, hx]

theorem dedupFold_mem (l : List String) :
    ∀ acc x, x ∈ l.foldl
        (fun acc x => if acc.contains x then acc else acc ++ [x]) acc →
      x ∈ acc ∨ x ∈ l := by
  induction l with
  | nil => intro acc x h; rw [List.foldl_nil] at h; exact Or.inl h
  | cons y ys ih =>
    intro acc x h
    simp only [List.foldl_cons] at h
    by_cases hy : y ∈ acc
    · rw [dedupStep_mem acc y hy] at h
      rcases ih acc x h with h1 | h1
      · exact Or.inl h1
      · exact Or.inr (List.mem_cons_of_mem y h1)
    · rw [dedupStep_not_mem acc y hy] at h
      rcases ih (acc ++ [y]) x h with h1 | h1
      · rcases List.mem_append.mp h1 with h2 | h2
        · exact Or.inl h2
        · have hxy : x = y := by simpa using h2
          exact Or.inr (by rw [hxy]; exact List.mem_cons_self y ys)
      · exact Or.inr (List.mem_cons_of_mem y h1)

theorem dedupFold_eq_of_nodup (l : List String) :
    ∀ acc : List String, (acc ++ l).Nodup →
      l.foldl (fun acc x => if acc.contains x then acc else acc ++ [x]) acc
        = acc ++ l := by
  induction l with
  | nil => intro acc _; simp
  | cons x xs ih =>
    intro acc h
    have hx : x ∉ acc := by
      have hd := List.disjoint_of_nodup_append h
      intro hmem
      exact hd hmem (List.mem_cons_self x xs)
    simp only [List.foldl_cons]
    rw [dedupStep_not_mem acc x hx]
    have h2 : ((acc ++ [x]) ++ xs).Nodup := by simpa using h
    rw [ih (acc ++ [x]) h2]
    simp

theorem jsSetDedup_nodup (l : List String) : (jsSetDedup l).Nodup :=
  dedupFold_nodup l [] List.nodup_nil

theorem jsSetDedup_subset (l : List String) (x : String)
    (h : x ∈ jsSetDedup l) : x ∈ l := by
  rcases dedupFold_mem l [] x h with h1 | h1
  · simp at h1
  · exact h1

theorem jsSetDedup_eq_self (l : List String) (h : l.Nodup) :
    jsSetDedup l = l := by
  unfold jsSetDedup
  rw [dedupFold_eq_of_nodup l [] (by simpa using h)]
  rfl

/-! Unfolding lemmas for the quota store on client-side storage. -/

theorem getRemainingChoices_eq (today : String) (s : Storage) :
    getRemainingChoices today (some s) =
      (DAILY_LIMIT - (chosenListOf (resetDailyCountIfNeeded today s)).length,
        some (resetDailyCountIfNeeded today s)) := by
  unfold getRemainingChoices
  simp [getChosenItemsToday_eq, resetDailyCountIfNeeded_idem]

theorem addChosenItem_eq (today : String) (now : Nat) (id : String)
    (s : Storage) :
    addChosenItem today now id (some s) =
      (if DAILY_LIMIT ≤ (chosenListOf (resetDailyCountIfNeeded today s)).length
        then (false, some (resetDailyCountIfNeeded today s))
        else if (chosenListOf (resetDailyCountIfNeeded today s)).any
            (fun c => c.id == id)
          then (true, some (resetDailyCountIfNeeded today s))
          else (true, some ⟨some (StoredChosen.val
              (chosenListOf (resetDailyCountIfNeeded today s) ++ [⟨id, now⟩])),
            some today⟩)) := by
  unfold addChosenItem
  simp only [getChosenItemsToday_eq, resetDailyCountIfNeeded_idem,
    resetDailyCountIfNeeded_lastResetDate]

theorem filterOutChosenItems_eq (today : String) (items : List MediaItem)
    (s : Storage) :
    filterOutChosenItems today items (some s) =
      (items.filter (fun item =>
          !(((chosenListOf (resetDailyCountIfNeeded today s)).map
            (fun c => c.id)).contains item.id)),
        some (resetDailyCountIfNeeded today s)) := by
  unfold filterOutChosenItems
  simp [getChosenItemsToday_eq]

theorem getRandomUnchosenSelection_eq
    (shuffle : List MediaItem → List MediaItem) (today : String)
    (items : List MediaItem) (count : Nat) (s : Storage) :
    getRandomUnchosenSelection shuffle today items count (some s) =
      (if min count
            (DAILY_LIMIT - (chosenListOf (resetDailyCountIfNeeded today s)).length)
          = 0
        then ([], some (resetDailyCountIfNeeded today s))
        else ((shuffle (items.filter (fun item =>
            !(((chosenListOf (resetDailyCountIfNeeded today s)).map
              (fun c => c.id)).contains item.id)))).take
          (min count
            (DAILY_LIMIT - (chosenListOf (resetDailyCountIfNeeded today s)).length)),
          some (resetDailyCountIfNeeded today s))) := by
  unfold getRandomUnchosenSelection
  simp only [filterOutChosenItems_eq, getRemainingChoices_eq,
    resetDailyCountIfNeeded_idem]

/-! Sample data used by concrete counterexamples and witnesses. -/

def sampleItem : MediaItem := ⟨"a", MediaType.movie, "Sample A", ["Drama"]⟩

def exItem1 : MediaItem := ⟨"1", MediaType.movie, "Example 1", []⟩

def exItem2 : MediaItem := ⟨"2", MediaType.movie, "Example 2", []⟩

def exItem3 : MediaItem := ⟨"3", MediaType.series, "Example 3", []⟩

/-- Twenty chosen records, so the daily limit is reached; id `"0"` is
among them. -/
def fullDayList : List ChosenItem :=
  [⟨"0", 0⟩, ⟨"1", 0⟩, ⟨"2", 0⟩, ⟨"3", 0⟩, ⟨"4", 0⟩, ⟨"5", 0⟩, ⟨"6", 0⟩,
   ⟨"7", 0⟩, ⟨"8", 0⟩, ⟨"9", 0⟩, ⟨"10", 0⟩, ⟨"11", 0⟩, ⟨"12", 0⟩, ⟨"13", 0⟩,
   ⟨"14", 0⟩, ⟨"15", 0⟩, ⟨"16", 0⟩, ⟨"17", 0⟩, ⟨"18", 0⟩, ⟨"19", 0⟩]

def fullDayStorage : Storage :=
  ⟨some (StoredChosen.val fullDayList), some "2026-10-12"⟩

/-! General facts about `getRandomUnchosenSelection`. -/

theorem select_state (shuffle : List MediaItem → List MediaItem)
    (today : String) (items : List MediaItem) (count : Nat) (s : Storage) :
    (getRandomUnchosenSelection shuffle today items count (some s)).2
      = some (resetDailyCountIfNeeded today s) := by
  rw [getRandomUnchosenSelection_eq]
  by_cases hc : min count
      (DAILY_LIMIT - (chosenListOf (resetDailyCountIfNeeded today s)).length) = 0
  · rw [if_pos hc]
  · rw [if_neg hc]

theorem select_mem_filter (shuffle : List MediaItem → List MediaItem)
    (today : String) (items : List MediaItem) (count : Nat) (s : Storage)
    (hsh : ∀ l, List.Perm (shuffle l) l) (x : MediaItem)
    (hx : x ∈ (getRandomUnchosenSelection shuffle today items count (some s)).1) :
    x ∈ items ∧ (!(((chosenListOf (resetDailyCountIfNeeded today s)).map
        (fun c => c.id)).contains x.id)) = true := by
  rw [getRandomUnchosenSelection_eq] at hx
  by_cases hc : min count
      (DAILY_LIMIT - (chosenListOf (resetDailyCountIfNeeded today s)).length) = 0
  · rw [if_pos hc] at hx
    simp at hx
  · rw [if_neg hc] at hx
    dsimp only at hx
    have hx1 := List.mem_of_mem_take hx
    have hx2 := (hsh _).mem_iff.mp hx1
    exact List.mem_filter.mp hx2

theorem select_mem (shuffle : List MediaItem → List MediaItem)
    (today : String) (items : List MediaItem) (count : Nat)
    (st : Option Storage) (hsh : ∀ l, List.Perm (shuffle l) l) (x : MediaItem)
    (hx : x ∈ (getRandomUnchosenSelection shuffle today items count st).1) :
    x ∈ items := by
  cases st with
  | none =>
    have hx1 : x ∈ (shuffle items).take (min count items.length) := hx
    exact (hsh items).mem_iff.mp (List.mem_of_mem_take hx1)
  | some s => exact (select_mem_filter shuffle today items count s hsh x hx).1

theorem select_length_le (shuffle : List MediaItem → List MediaItem)
    (today : String) (items : List MediaItem) (count : Nat)
    (st : Option Storage) :
    (getRandomUnchosenSelection shuffle today items count st).1.length
      ≤ count := by
  cases st with
  | none =>
    show ((shuffle items).take (min count items.length)).length ≤ count
    exact le_trans (List.length_take_le _ _) (Nat.min_le_left _ _)
  | some s =>
    rw [getRandomUnchosenSelection_eq]
    by_cases hc : min count
        (DAILY_LIMIT - (chosenListOf (resetDailyCountIfNeeded today s)).length) = 0
    · rw [if_pos hc]
      simp
    · rw [if_neg hc]
      dsimp only
      exact le_trans (List.length_take_le _ _) (Nat.min_le_left _ _)

/-- C1, counterexample: on an empty client-side day, `select` returns the
candidate item but does not register it with the Quota Store — afterwards
the returned id does not appear in today's chosen-record set, contradicting
the claim that each returned id is registered via `tryAdd`. -/
theorem c1_counterexample :
    (getRandomUnchosenSelection (fun l => l) "2026-10-12" [sampleItem] 1
        (some ⟨none, some "2026-10-12"⟩)).1 = [sampleItem]
    ∧ ((getChosenItemsToday "2026-10-12"
          (getRandomUnchosenSelection (fun l => l) "2026-10-12" [sampleItem] 1
            (some ⟨none, some "2026-10-12"⟩)).2).1.any
        (fun c => c.id == sampleItem.id)) = false := by
  decide

/-- C1, amended: `select` performs no Quota Store registration at all: the
storage after a client-side call is exactly the date-reconciled storage
(no `tryAdd` per returned item), and consequently no returned id appears in
today's chosen-record set after the call; registration is left to the
caller. -/
theorem c1_amended (shuffle : List MediaItem → List MediaItem)
    (today : String) (items : List MediaItem) (count : Nat) (s : Storage)
    (hsh : ∀ l, List.Perm (shuffle l) l) :
    (getRandomUnchosenSelection shuffle today items count (some s)).2
        = some (resetDailyCountIfNeeded today s)
    ∧ ∀ x ∈ (getRandomUnchosenSelection shuffle today items count (some s)).1,
        ((getChosenItemsToday today
            (getRandomUnchosenSelection shuffle today items count (some s)).2).1.any
          (fun c => c.id == x.id)) = false := by
  have hst := select_state shuffle today items count s
  refine ⟨hst, ?_⟩
  intro x hx
  have hpred := (select_mem_filter shuffle today items count s hsh x hx).2
  rw [hst, getChosenItemsToday_eq, resetDailyCountIfNeeded_idem]
  dsimp only
  rw [List.any_eq_false]
  intro c hcmem hceq
  have hceq2 : c.id = x.id := eq_of_beq hceq
  have hmm : x.id ∈ (chosenListOf (resetDailyCountIfNeeded today s)).map
      (fun c => c.id) := List.mem_map.mpr ⟨c, hcmem, hceq2⟩
  have h4 : ((chosenListOf (resetDailyCountIfNeeded today s)).map
      (fun c => c.id)).contains x.id = true := List.elem_iff.mpr hmm
  rw [h4] at hpred
  exact absurd hpred (by decide)

/-- Witness for C1 (amended) on an empty day with one candidate. -/
theorem c1_amended_witness :
    (getRandomUnchosenSelection (fun l => l) "2026-10-13" [exItem1] 1
        (some ⟨none, some "2026-10-13"⟩)).2
      = some (resetDailyCountIfNeeded "2026-10-13" ⟨none, some "2026-10-13"⟩) :=
  (c1_amended (fun l => l) "2026-10-13" [exItem1] 1 ⟨none, some "2026-10-13"⟩
    (fun l => List.Perm.refl l)).1

/-- C3, counterexample: on a `dislike` interaction with the item found, the
updater does not leave a duplicated preference list unchanged — it dedups
(and caps) it, so `["Drama", "Drama"]` becomes `["Drama"]`. -/
theorem c3_counterexample :
    updateUserProfileWithInteraction ["Drama", "Drama"]
        ⟨"a", Action.dislike⟩ (fun _ => some sampleItem)
      ≠ ["Drama", "Drama"] := by
  decide

/-- C3, amended: `updateUserProfileWithInteraction` returns
`currentPreferences` identically when the lookup fails; when the item is
found and the action is dislike/skip it instead returns
`dedup(current).take 10` — it adds no genre, but normalizes duplicate or
over-cap inputs.  `updateUserProfile` returns `dedup(current).take 15` on
dislike/skip and also when the item is not found.  These equal the input
exactly when the input already satisfies the no-duplicates/cap invariant. -/
theorem c3_amended (prefs : List String) (itemId : String) (act : Action)
    (lookup : String → Option MediaItem) (items : List MediaItem) :
    (lookup itemId = none →
      updateUserProfileWithInteraction prefs ⟨itemId, act⟩ lookup = prefs)
    ∧ (act = Action.dislike ∨ act = Action.skip →
        updateUserProfileWithInteraction prefs ⟨itemId, act⟩ lookup = prefs
          ∨ updateUserProfileWithInteraction prefs ⟨itemId, act⟩ lookup
              = (jsSetDedup prefs).take 10)
    ∧ (act = Action.dislike ∨ act = Action.skip →
        updateUserProfile prefs ⟨itemId, act⟩ items = (jsSetDedup prefs).take 15)
    ∧ (items.find? (fun m => m.id == itemId) = none →
        updateUserProfile prefs ⟨itemId, act⟩ items = (jsSetDedup prefs).take 15)
    ∧ (prefs.Nodup → prefs.length ≤ 10 → (jsSetDedup prefs).take 10 = prefs) := by
  refine ⟨?_, ?_, ?_, ?_, ?_⟩
  · intro h
    unfold updateUserProfileWithInteraction
    dsimp only
    rw [h]
  · intro hact
    cases hlk : lookup itemId with
    | none =>
      left
      unfold updateUserProfileWithInteraction
      dsimp only
      rw [hlk]
    | some it =>
      right
      unfold updateUserProfileWithInteraction
      dsimp only
      rw [hlk]
      rcases hact with h | h <;> subst h <;> rfl
  · intro hact
    unfold updateUserProfile
    dsimp only
    rcases hact with h | h <;> subst h <;> rfl
  · intro hfind
    unfold updateUserProfile
    dsimp only
    rw [hfind]
    cases hb : (act == Action.like || act == Action.superlike) <;> simp [hb]
  · intro h1 h2
    rw [jsSetDedup_eq_self prefs h1]
    exact List.take_of_length_le h2

/-- Witness for C3 (amended): a failing lookup returns the preferences
identically. -/
theorem c3_amended_witness :
    updateUserProfileWithInteraction ["Drama"] ⟨"z", Action.dislike⟩
      (fun _ => none) = ["Drama"] :=
  (c3_amended ["Drama"] "z" Action.dislike (fun _ => none) []).1 rfl

/-- C4: on a client-side call, the selection's length is exactly
`min(count, remaining, filtered.length)` where `filtered` is the candidate
list with already-chosen-today ids removed, and whenever `remaining() = 0`
the result is empty regardless of the candidate list. -/
theorem c4_select_length (shuffle : List MediaItem → List MediaItem)
    (today : String) (items : List MediaItem) (count : Nat) (s : Storage)
    (hsh : ∀ l, List.Perm (shuffle l) l) :
    ((getRandomUnchosenSelection shuffle today items count (some s)).1.length
      = min count (min (getRemainingChoices today (some s)).1
          (filterOutChosenItems today items (some s)).1.length))
    ∧ ((getRemainingChoices today (some s)).1 = 0 →
        (getRandomUnchosenSelection shuffle today items count (some s)).1
          = []) := by
  rw [getRandomUnchosenSelection_eq, getRemainingChoices_eq,
    filterOutChosenItems_eq]
  dsimp only
  constructor
  · by_cases hc : min count
        (DAILY_LIMIT - (chosenListOf (resetDailyCountIfNeeded today s)).length) = 0
    · rw [if_pos hc]
      simp only [List.length_nil]
      omega
    · rw [if_neg hc]
      dsimp only
      rw [List.length_take, (hsh _).length_eq, Nat.min_assoc]
  · intro h0
    have hc : min count
        (DAILY_LIMIT - (chosenListOf (resetDailyCountIfNeeded today s)).length)
          = 0 := by omega
    rw [if_pos hc]

/-- Witness for C4: one fresh candidate, count 1 and an empty day select
exactly one item. -/
theorem c4_select_length_witness :
    (getRandomUnchosenSelection (fun l => l) "2026-10-12" [sampleItem] 1
        (some ⟨none, some "2026-10-12"⟩)).1.length = 1 := by
  have h := (c4_select_length (fun l => l) "2026-10-12" [sampleItem] 1
      ⟨none, some "2026-10-12"⟩ (fun l => List.Perm.refl l)).1
  rw [h]
  decide

/-- The PreferenceList invariant: no duplicate genres, length at most the
cap. -/
def PrefInv (cap : Nat) (l : List String) : Prop :=
  l.Nodup ∧ l.length ≤ cap

theorem updateUserProfile_inv (prefs : List String) (i : Interaction)
    (items : List MediaItem) : PrefInv 15 (updateUserProfile prefs i items) :=
  ⟨(jsSetDedup_nodup _).sublist (List.take_sublist _ _),
    List.length_take_le _ _⟩

theorem updateUserProfileWithInteraction_inv (prefs : List String)
    (i : Interaction) (lookup : String → Option MediaItem)
    (h : PrefInv 10 prefs) :
    PrefInv 10 (updateUserProfileWithInteraction prefs i lookup) := by
  unfold updateUserProfileWithInteraction
  cases hlk : lookup i.itemId with
  | none => exact h
  | some it =>
    exact ⟨(jsSetDedup_nodup _).sublist (List.take_sublist _ _),
      List.length_take_le _ _⟩

theorem foldl_updateUserProfile_inv (items : List MediaItem)
    (history : List Interaction) :
    ∀ p : List String, PrefInv 15 p →
      PrefInv 15 (history.foldl (fun q j => updateUserProfile q j items) p) := by
  induction history with
  | nil => intro p h; exact h
  | cons j js ih => intro p _; exact ih _ (updateUserProfile_inv p j items)

theorem foldl_updateUserProfileWithInteraction_inv
    (lookup : String → Option MediaItem) (history : List Interaction) :
    ∀ p : List String, PrefInv 10 p →
      PrefInv 10 (history.foldl
        (fun q j => updateUserProfileWithInteraction q j lookup) p) := by
  induction history with
  | nil => intro p h; exact h
  | cons j js ih =>
    intro p h
    exact ih _ (updateUserProfileWithInteraction_inv p j lookup h)

/-- C5: starting from a preference list satisfying the invariant, a single
update call preserves it (no duplicates, length at most 15 for
`updateUserProfile` and 10 for `updateUserProfileWithInteraction`), and so
does folding any interaction history one interaction at a time. -/
theorem c5_preference_invariant (prefs : List String) (i : Interaction)
    (items : List MediaItem) (lookup : String → Option MediaItem)
    (history : List Interaction) :
    (PrefInv 15 prefs → PrefInv 15 (updateUserProfile prefs i items))
    ∧ (PrefInv 10 prefs →
        PrefInv 10 (updateUserProfileWithInteraction prefs i lookup))
    ∧ (PrefInv 15 prefs →
        PrefInv 15 (history.foldl (fun q j => updateUserProfile q j items) prefs))
    ∧ (PrefInv 10 prefs →
        PrefInv 10 (history.foldl
          (fun q j => updateUserProfileWithInteraction q j lookup) prefs)) :=
  ⟨fun _ => updateUserProfile_inv prefs i items,
    fun h => updateUserProfileWithInteraction_inv prefs i lookup h,
    fun h => foldl_updateUserProfile_inv items history prefs h,
    fun h => foldl_updateUserProfileWithInteraction_inv lookup history prefs h⟩

/-- Witness for C5 at a concrete one-interaction history. -/
theorem c5_preference_invariant_witness :
    PrefInv 15 (updateUserProfile ["Drama"] ⟨"1", Action.like⟩ [])
    ∧ PrefInv 10 ([(⟨"1", Action.like⟩ : Interaction)].foldl
        (fun q j => updateUserProfileWithInteraction q j (fun _ => none))
        ["Drama"]) := by
  have h := c5_preference_invariant ["Drama"] ⟨"1", Action.like⟩ []
    (fun _ => none) [⟨"1", Action.like⟩]
  exact ⟨h.1 ⟨by decide, by decide⟩, h.2.2.2 ⟨by decide, by decide⟩⟩

/-- C8: without persistent storage (non-client context), the quota
operations are permissive no-ops: `today()` is empty, `tryAdd` is `true`,
`remaining()` is the full limit, and `select` shuffles the full candidate
set, returning `min count items.length` of them with no filtering and no
state change. -/
theorem c8_server_side (shuffle : List MediaItem → List MediaItem)
    (today : String) (now : Nat) (id : String) (items : List MediaItem)
    (count : Nat) (hsh : ∀ l, List.Perm (shuffle l) l) :
    getChosenItemsToday today none = ([], none)
    ∧ addChosenItem today now id none = (true, none)
    ∧ getRemainingChoices today none = (DAILY_LIMIT, none)
    ∧ (getRandomUnchosenSelection shuffle today items count none).1.length
        = min count items.length
    ∧ (∀ x ∈ (getRandomUnchosenSelection shuffle today items count none).1,
        x ∈ items)
    ∧ (getRandomUnchosenSelection shuffle today items count none).2 = none := by
  refine ⟨rfl, rfl, rfl, ?_, ?_, rfl⟩
  · show ((shuffle items).take (min count items.length)).length
      = min count items.length
    rw [List.length_take, (hsh items).length_eq, Nat.min_assoc, Nat.min_self]
  · intro x hx
    have hx1 : x ∈ (shuffle items).take (min count items.length) := hx
    exact (hsh items).mem_iff.mp (List.mem_of_mem_take hx1)

/-- Witness for C8 with two candidates and count 1. -/
theorem c8_server_side_witness :
    getChosenItemsToday "2026-10-12" none = ([], none)
    ∧ addChosenItem "2026-10-12" 0 "a" none = (true, none)
    ∧ getRemainingChoices "2026-10-12" none = (DAILY_LIMIT, none)
    ∧ (getRandomUnchosenSelection (fun l => l) "2026-10-12"
        [sampleItem, exItem1] 1 none).1.length
        = min 1 [sampleItem, exItem1].length
    ∧ (∀ x ∈ (getRandomUnchosenSelection (fun l => l) "2026-10-12"
        [sampleItem, exItem1] 1 none).1, x ∈ [sampleItem, exItem1])
    ∧ (getRandomUnchosenSelection (fun l => l) "2026-10-12"
        [sampleItem, exItem1] 1 none).2 = none :=
  c8_server_side (fun l => l) "2026-10-12" 0 "a" [sampleItem, exItem1] 1
    (fun l => List.Perm.refl l)

/-- C9: every quota read (today's list, remaining, tryAdd) first reconciles
the stored date: on a stale stored date the chosen list is treated as
cleared and the stored date is overwritten with today before any count is
taken, so `today()` is empty, `remaining()` is the full limit 20, and
`tryAdd` appends to the cleared list. -/
theorem c9_date_reconciliation (today : String) (now : Nat) (id : String)
    (s : Storage) (h : s.lastResetDate ≠ some today) :
    getChosenItemsToday today (some s) = ([], some ⟨none, some today⟩)
    ∧ getRemainingChoices today (some s) = (DAILY_LIMIT, some ⟨none, some today⟩)
    ∧ addChosenItem today now id (some s)
        = (true, some ⟨some (StoredChosen.val [⟨id, now⟩]), some today⟩)
    ∧ DAILY_LIMIT = 20 := by
  have hr := resetDailyCountIfNeeded_of_stale today s h
  refine ⟨?_, ?_, ?_, rfl⟩
  · rw [getChosenItemsToday_eq, hr]; rfl
  · rw [getRemainingChoices_eq, hr]; rfl
  · rw [addChosenItem_eq, hr]
    have hcl0 : chosenListOf (⟨none, some today⟩ : Storage) = [] := rfl
    rw [hcl0]
    rw [if_neg (by simp [DAILY_LIMIT])]
    rw [if_neg (by simp)]
    rfl

/-- Witness for C9 at a concrete stale-dated storage holding one record. -/
theorem c9_date_reconciliation_witness :
    getChosenItemsToday "2026-10-12"
        (some ⟨some (StoredChosen.val [⟨"a", 3⟩]), some "2026-10-11"⟩)
        = ([], some ⟨none, some "2026-10-12"⟩)
    ∧ getRemainingChoices "2026-10-12"
        (some ⟨some (StoredChosen.val [⟨"a", 3⟩]), some "2026-10-11"⟩)
        = (DAILY_LIMIT, some ⟨none, some "2026-10-12"⟩)
    ∧ addChosenItem "2026-10-12" 7 "b"
        (some ⟨some (StoredChosen.val [⟨"a", 3⟩]), some "2026-10-11"⟩)
        = (true, some ⟨some (StoredChosen.val [⟨"b", 7⟩]), some "2026-10-12"⟩)
    ∧ DAILY_LIMIT = 20 :=
  c9_date_reconciliation "2026-10-12" 7 "b"
    ⟨some (StoredChosen.val [⟨"a", 3⟩]), some "2026-10-11"⟩ (by decide)

/-- C10: when the stored chosen-today value exists but is not parseable as
JSON, `getChosenItemsToday` returns the empty list instead of raising, and
the quota interface behaves exactly as on an empty day: remaining is the
full limit and `tryAdd` appends to an empty list. -/
theorem c10_corrupt_storage (today : String) (now : Nat) (id : String)
    (s : Storage) (hc : s.chosenToday = some StoredChosen.corrupt)
    (hd : s.lastResetDate = some today) :
    (getChosenItemsToday today (some s)).1 = []
    ∧ (getRemainingChoices today (some s)).1 = DAILY_LIMIT
    ∧ addChosenItem today now id (some s)
        = (true, some ⟨some (StoredChosen.val [⟨id, now⟩]), some today⟩) := by
  have hr := resetDailyCountIfNeeded_of_current today s hd
  have hcl : chosenListOf s = [] := by unfold chosenListOf; rw [hc]
  refine ⟨?_, ?_, ?_⟩
  · rw [getChosenItemsToday_eq, hr, hcl]
  · rw [getRemainingChoices_eq, hr, hcl]; rfl
  · rw [addChosenItem_eq, hr, hcl]
    rw [if_neg (by simp [DAILY_LIMIT])]
    rw [if_neg (by simp)]
    rfl

/-- Witness for C10 at a concrete storage holding an unparseable value. -/
theorem c10_corrupt_storage_witness :
    (getChosenItemsToday "2026-10-12"
        (some ⟨some StoredChosen.corrupt, some "2026-10-12"⟩)).1 = []
    ∧ (getRemainingChoices "2026-10-12"
        (some ⟨some StoredChosen.corrupt, some "2026-10-12"⟩)).1 = DAILY_LIMIT
    ∧ addChosenItem "2026-10-12" 7 "b"
        (some ⟨some StoredChosen.corrupt, some "2026-10-12"⟩)
        = (true, some ⟨some (StoredChosen.val [⟨"b", 7⟩]), some "2026-10-12"⟩) :=
  c10_corrupt_storage "2026-10-12" 7 "b"
    ⟨some StoredChosen.corrupt, some "2026-10-12"⟩ rfl rfl

/-- C2, counterexample: with today's stored records at the limit (20) and
the id `"0"` already among them, `addChosenItem "0"` returns `false`, not
`true` as the claim states for an already-present id (the source checks the
limit before the already-present check). -/
theorem c2_counterexample :
    (fullDayList.any (fun c => c.id == "0")) = true
    ∧ fullDayList.length = DAILY_LIMIT
    ∧ (addChosenItem "2026-10-12" 5 "0" (some fullDayStorage)).1 = false := by
  decide

/-- C2, amended: after date reconciliation with resulting records `chosen`,
`tryAdd(id)` returns `false` leaving the records unchanged whenever the
count is at the limit — even if `id` is already present; below the limit it
returns `true` without mutating when `id` is present, and otherwise appends
exactly one record with the current timestamp and returns `true`.  Adding
the same id twice in one day still changes the stored count by at most 1. -/
theorem c2_amended (today : String) (now now2 : Nat) (id : String)
    (s : Storage) :
    (DAILY_LIMIT ≤ (chosenListOf (resetDailyCountIfNeeded today s)).length →
      addChosenItem today now id (some s)
        = (false, some (resetDailyCountIfNeeded today s)))
    ∧ ((chosenListOf (resetDailyCountIfNeeded today s)).length < DAILY_LIMIT →
        (chosenListOf (resetDailyCountIfNeeded today s)).any
            (fun c => c.id == id) = true →
        addChosenItem today now id (some s)
          = (true, some (resetDailyCountIfNeeded today s)))
    ∧ ((chosenListOf (resetDailyCountIfNeeded today s)).length < DAILY_LIMIT →
        (chosenListOf (resetDailyCountIfNeeded today s)).any
            (fun c => c.id == id) = false →
        addChosenItem today now id (some s)
          = (true, some ⟨some (StoredChosen.val
              (chosenListOf (resetDailyCountIfNeeded today s) ++ [⟨id, now⟩])),
            some today⟩))
    ∧ (getChosenItemsToday today
          (addChosenItem today now2 id
            (addChosenItem today now id (some s)).2).2).1.length
        ≤ (chosenListOf (resetDailyCountIfNeeded today s)).length + 1 := by
  have hs1 : resetDailyCountIfNeeded today (resetDailyCountIfNeeded today s)
      = resetDailyCountIfNeeded today s := resetDailyCountIfNeeded_idem today s
  refine ⟨?_, ?_, ?_, ?_⟩
  · intro h
    rw [addChosenItem_eq, if_pos h]
  · intro h1 h2
    rw [addChosenItem_eq, if_neg (by omega), if_pos h2]
  · intro h1 h2
    rw [addChosenItem_eq, if_neg (by omega), if_neg (by simp [h2])]
  · by_cases h1 : DAILY_LIMIT ≤ (chosenListOf (resetDailyCountIfNeeded today s)).length
    · rw [addChosenItem_eq, if_pos h1]
      rw [addChosenItem_eq, hs1, if_pos (by simpa [hs1] using h1)]
      rw [getChosenItemsToday_eq, hs1]
      dsimp only
      omega
    · by_cases h2 : (chosenListOf (resetDailyCountIfNeeded today s)).any
          (fun c => c.id == id) = true
      · rw [addChosenItem_eq, if_neg h1, if_pos h2]
        rw [addChosenItem_eq, hs1, if_neg (by simpa [hs1] using h1),
          if_pos (by simpa [hs1] using h2)]
        rw [getChosenItemsToday_eq, hs1]
        dsimp only
        omega
      · rw [addChosenItem_eq, if_neg h1, if_neg h2]
        have hd2 : (⟨some (StoredChosen.val
            (chosenListOf (resetDailyCountIfNeeded today s) ++ [⟨id, now⟩])),
            some today⟩ : Storage).lastResetDate = some today := rfl
        have hr2 := resetDailyCountIfNeeded_of_current today _ hd2
        rw [addChosenItem_eq, hr2]
        have hcl2 : chosenListOf (⟨some (StoredChosen.val
            (chosenListOf (resetDailyCountIfNeeded today s) ++ [⟨id, now⟩])),
            some today⟩ : Storage)
            = chosenListOf (resetDailyCountIfNeeded today s) ++ [⟨id, now⟩] := rfl
        rw [hcl2]
        by_cases h3 : DAILY_LIMIT ≤
            (chosenListOf (resetDailyCountIfNeeded today s)
              ++ [(⟨id, now⟩ : ChosenItem)]).length
        · rw [if_pos h3, getChosenItemsToday_eq, hr2, hcl2]
          simp
        · rw [if_neg h3, if_pos (by simp), getChosenItemsToday_eq, hr2, hcl2]
          simp

/-- Witness for C2 (amended) at a one-record storage already holding the
added id: `tryAdd` returns `true` and the records are unchanged. -/
theorem c2_amended_witness :
    addChosenItem "2026-10-12" 7 "x"
        (some ⟨some (StoredChosen.val [⟨"x", 0⟩]), some "2026-10-12"⟩)
      = (true, some ⟨some (StoredChosen.val [⟨"x", 0⟩]), some "2026-10-12"⟩) :=
  (c2_amended "2026-10-12" 7 8 "x"
    ⟨some (StoredChosen.val [⟨"x", 0⟩]), some "2026-10-12"⟩).2.1
    (by decide) (by decide)

/-- Every successful run of the orchestrator body ends in a quota-limited
selection with target count 10 over some candidate list. -/
theorem orchestratorBody_ok (fetchRec fetchPop : Except Unit (List MediaItem))
    (gemini : List MediaItem → Except Unit (List MediaItem))
    (mock : List MediaItem) (shuffle : List MediaItem → List MediaItem)
    (today : String) (st : Option Storage)
    (r : List MediaItem × Option Storage)
    (h : orchestratorBody fetchRec fetchPop gemini mock shuffle today st
        = Except.ok r) :
    ∃ final, r = getRandomUnchosenSelection shuffle today final 10 st := by
  unfold orchestratorBody at h
  cases fetchRec with
  | error e => exact Except.noConfusion h
  | ok tmdb =>
    dsimp only at h
    cases hfp : (if tmdb.isEmpty then fetchPop else Except.ok tmdb) with
    | error e => rw [hfp] at h; exact Except.noConfusion h
    | ok tmdb2 =>
      rw [hfp] at h
      dsimp only at h
      by_cases he : tmdb2.isEmpty = true
      · rw [if_pos he] at h
        injection h with h2
        exact ⟨mock, h2.symm⟩
      · rw [if_neg he] at h
        cases hg : gemini tmdb2 with
        | error e => rw [hg] at h; exact Except.noConfusion h
        | ok gem =>
          rw [hg] at h
          injection h with h2
          exact ⟨chooseFinalRecommendations gem tmdb2, h2.symm⟩

/-- C6: the orchestrator, as the catch-wrapped try body, always returns a
list (of length at most 10) no matter how its collaborators behave —
including when they throw — and when both the genre query and the popular
query return empty results, every returned item comes from the static
bundled mock dataset. -/
theorem c6_orchestrator (fetchRec fetchPop : Except Unit (List MediaItem))
    (gemini : List MediaItem → Except Unit (List MediaItem))
    (mock : List MediaItem) (shuffle : List MediaItem → List MediaItem)
    (today : String) (st : Option Storage)
    (hsh : ∀ l, List.Perm (shuffle l) l) :
    (getPersonalizedRecommendations fetchRec fetchPop gemini mock shuffle
        today st).1.length ≤ 10
    ∧ (fetchRec = Except.ok [] → fetchPop = Except.ok [] →
        ∀ x ∈ (getPersonalizedRecommendations fetchRec fetchPop gemini mock
            shuffle today st).1, x ∈ mock) := by
  constructor
  · unfold getPersonalizedRecommendations
    cases hbody : orchestratorBody fetchRec fetchPop gemini mock shuffle
        today st with
    | error e => exact select_length_le shuffle today mock 10 st
    | ok r =>
      obtain ⟨final, hf⟩ := orchestratorBody_ok fetchRec fetchPop gemini mock
        shuffle today st r hbody
      rw [hf]
      exact select_length_le shuffle today final 10 st
  · intro h1 h2
    subst h1
    subst h2
    intro x hx
    have hred : getPersonalizedRecommendations (Except.ok []) (Except.ok [])
        gemini mock shuffle today st
        = getRandomUnchosenSelection shuffle today mock 10 st := rfl
    rw [hred] at hx
    exact select_mem shuffle today mock 10 st hsh x hx

/-- Witness for C6: both queries empty, re-ranker empty, server-side
storage. -/
theorem c6_orchestrator_witness :
    (getPersonalizedRecommendations (Except.ok []) (Except.ok [])
        (fun _ => Except.ok []) [sampleItem] (fun l => l) "2026-10-12"
        none).1.length ≤ 10
    ∧ ∀ x ∈ (getPersonalizedRecommendations (Except.ok []) (Except.ok [])
        (fun _ => Except.ok []) [sampleItem] (fun l => l) "2026-10-12"
        none).1, x ∈ [sampleItem] := by
  have h := c6_orchestrator (Except.ok []) (Except.ok [])
    (fun _ => Except.ok []) [sampleItem] (fun l => l) "2026-10-12" none
    (fun l => List.Perm.refl l)
  exact ⟨h.1, h.2 rfl rfl⟩

/-- C7: response parsing yields pairwise-distinct ids, at most 10 of them,
each matching some candidate id (first occurrences in order of appearance,
unmatched tokens ignored); the reorder step maps extracted ids to their
candidates with unknown ids dropped; with no extracted id the re-rank
result is empty and the caller keeps the pre-rerank ordering; and on the
spec example, ids `["3","1"]` over candidates 1, 2, 3 (with the unmatched
token `7` ignored and the duplicate `3` deduplicated) reorder to
`[item 3, item 1]`. -/
theorem c7_rerank (r : String) (items : List MediaItem) :
    (parseGeminiResponse r items).Nodup
    ∧ (parseGeminiResponse r items).length ≤ 10
    ∧ (parseGeminiResponse r items).all
        (fun id => items.any (fun it => it.id == id)) = true
    ∧ reorderByIds [] items = []
    ∧ chooseFinalRecommendations [] items = items
    ∧ parseGeminiResponse "3 7 1 3" [exItem1, exItem2, exItem3] = ["3", "1"]
    ∧ reorderByIds ["3", "1"] [exItem1, exItem2, exItem3]
        = [exItem3, exItem1] := by
  refine ⟨?_, ?_, ?_, rfl, rfl, by decide, by decide⟩
  · exact (jsSetDedup_nodup _).sublist (List.take_sublist _ _)
  · exact List.length_take_le _ _
  · rw [List.all_eq_true]
    intro i0 hi0
    have h1 : i0 ∈ jsSetDedup ((digitTokens r).filter
        (fun id => items.any (fun it => it.id == id))) :=
      List.mem_of_mem_take hi0
    have h2 := jsSetDedup_subset _ _ h1
    exact (List.mem_filter.mp h2).2

end IndicAI
